import Mathlib

/-!
Verification of the FinancialProof job-orchestration and analyzer subsystem.

The definitions below are a shallow embedding of the repository's code:
`src/jobs/manager.py`, `src/jobs/executor.py`, and the two analyzers
`src/analysis/statistical/arima.py` and `src/analysis/nlp/sentiment.py`.
The modules `core/database.py`, `core/data_provider.py`, `analysis/base.py`
and `analysis/registry.py` are imported by that code but are not present in
the source tree; the parts of them that the theorems need are modelled from
the specification (each such definition says so in its doc comment).
Python machine-level details that no theorem touches (timestamps,
`created_at` and friends) are elided.
-/

/-- Job status enum (`core/database.py`, modelled from the spec §4.2:
PENDING initial, RUNNING, and the three terminal states). -/
inductive JobStatus where
  | pending
  | running
  | completed
  | failed
  | cancelled
deriving DecidableEq, Repr

/-- A terminal status per spec §4.2: COMPLETED, FAILED, CANCELLED. -/
def JobStatus.isTerminal : JobStatus → Bool
  | .completed => true
  | .failed => true
  | .cancelled => true
  | _ => false

/-- Value of one entry of the opaque `parameters` mapping of a job
(Python dict values: we carry the shapes the core reads). -/
inductive PVal where
  | pbool (b : Bool)
  | pstr (s : String)
  | pnum (q : ℚ)
deriving DecidableEq, Repr

/-- Python truthiness of a parameter value, used by `if include_news:`. -/
def PVal.truthy : PVal → Bool
  | .pbool b => b
  | .pstr s => !s.isEmpty
  | .pnum q => if q = 0 then false else true

/-- Look up a key in a parameter mapping (Python `dict` access). -/
def pget : List (String × PVal) → String → Option PVal
  | [], _ => none
  | (k, v) :: rest, key => if k = key then some v else pget rest key

/-- The Job record (`core/database.py` dataclass as used by
`jobs/manager.py` and `jobs/executor.py`; timestamps elided). -/
structure Job where
  symbol : String
  analysis_type : String
  parameters : Option (List (String × PVal))
  status : JobStatus
  progress : Int
  error_message : Option String
deriving DecidableEq, Repr

/-- Analysis timeframe enum (`analysis/base.py` `AnalysisTimeframe`,
modelled from the spec: short / medium / long horizons). -/
inductive AnalysisTimeframe where
  | short
  | medium
  | long
deriving DecidableEq, Repr

/-- A market dataset: the series of close prices.  The executor only ever
asks whether the dataset is empty and hands it to the analyzer; the
Auto-Selector reads the `Close` column, which is what we carry. -/
abbrev Dataset := List ℚ

/-- The analyzer result object (`analysis/base.py` `AnalysisResult`,
modelled from the spec §3; the free-form `data` / `predictions` /
`chart_data` payloads, which no claim touches, are elided). -/
structure AnalysisResult where
  analysis_type : String
  symbol : String
  summary : String
  confidence : ℚ
  recommendation : Option String
  warnings : List String
deriving DecidableEq, Repr

/-- Modelled from the spec: `BaseAnalyzer.create_empty_result` of the absent
`analysis/base.py`.  §4.1: on internal failure the analyzer returns a
sentinel "empty" result carrying an explanatory message in place of a
summary and a confidence of 0. -/
def create_empty_result (name symbol msg : String) : AnalysisResult :=
  { analysis_type := name
    symbol := symbol
    summary := msg
    confidence := 0
    recommendation := none
    warnings := [] }

/-- The parameter bundle handed to `analyze`
(`analysis/base.py` `AnalysisParameters`, modelled from the spec §4.1:
symbol, dataset, requested timeframe, custom-parameter mapping). -/
structure AnalysisParameters where
  symbol : String
  data : Dataset
  timeframe : AnalysisTimeframe
  custom_params : List (String × PVal)

/-- Stored result row (`core/database.py` `AnalysisResult` as filled in by
`JobManager.save_result`; only the fields the manager copies). -/
structure DBResult where
  job_id : Nat
  summary : String
  confidence : ℚ
deriving DecidableEq, Repr

/-- State of the job store (the external Job Store collaborator, spec §6:
CRUD over Job and result records keyed by integer id). -/
structure DBState where
  jobs : List (Nat × Job)
  results : List DBResult
  nextId : Nat
deriving DecidableEq, Repr

namespace DB

/-- Look up the job stored under an id (first match wins). -/
def lookupJob : List (Nat × Job) → Nat → Option Job
  | [], _ => none
  | (i, j) :: rest, id => if i = id then some j else lookupJob rest id

/-- `db.get_job`: fetch a job record by id. -/
def get_job (s : DBState) (id : Nat) : Option Job :=
  lookupJob s.jobs id

/-- Replace the record stored under `id`. -/
def setJob : List (Nat × Job) → Nat → Job → List (Nat × Job)
  | [], _, _ => []
  | (i, j) :: rest, id, j2 =>
      if i = id then (i, j2) :: setJob rest id j2 else (i, j) :: setJob rest id j2

/-- `db.create_job`: store a new row under a fresh store-assigned id and
return that id (spec §3: identity assigned by the store). -/
def create_job (s : DBState) (j : Job) : Nat × DBState :=
  (s.nextId, { s with jobs := (s.nextId, j) :: s.jobs, nextId := s.nextId + 1 })

/-- Legal status transitions of the spec §4.2 state machine:
PENDING→RUNNING, RUNNING→COMPLETED, RUNNING→FAILED, PENDING→FAILED,
PENDING→CANCELLED.  The RUNNING→RUNNING self-loop is the in-place progress
report of §4.4 (steps 2-6 update progress while the status stays RUNNING).
No transition leaves a terminal state. -/
def legalTransition : JobStatus → JobStatus → Bool
  | .pending, .running => true
  | .running, .running => true
  | .running, .completed => true
  | .running, .failed => true
  | .pending, .failed => true
  | .pending, .cancelled => true
  | _, _ => false

/-- Modelled from the spec: the status-transition core of
`db.update_job_status` (`core/database.py` is absent from src/).
It applies the §4.2 edge effects — PENDING→RUNNING resets progress to 0,
RUNNING→COMPLETED forces progress to 100, transitions to FAILED store the
error message, `error_message` is set iff status = FAILED (§3) — and keeps
the §3 invariant that progress is monotonically non-decreasing while the
status is RUNNING by rejecting a lower progress report.  `none` means the
transition is rejected (illegal edge, a no-op for the caller). -/
def transitionJob (j : Job) (st : JobStatus) (progress : Option Int)
    (error : Option String) : Option Job :=
  match j.status, st with
  | .pending, .running => some { j with status := .running, progress := 0, error_message := none }
  | .running, .running =>
      let p := progress.getD j.progress
      if p < j.progress then none
      else some { j with progress := p }
  | .running, .completed => some { j with status := .completed, progress := 100, error_message := none }
  | .running, .failed => some { j with status := .failed, error_message := error }
  | .pending, .failed => some { j with status := .failed, error_message := error }
  | .pending, .cancelled => some { j with status := .cancelled, error_message := none }
  | _, _ => none

/-- Modelled from the spec: `db.update_job_status` of the absent
`core/database.py`.  §4.3: enforces the state machine, rejects illegal
transitions; §4.2: attempting a transition out of a terminal state is a
no-op reported as a failed precondition, not a crash. -/
def update_job_status (s : DBState) (id : Nat) (st : JobStatus)
    (progress : Option Int) (error : Option String) : DBState :=
  match get_job s id with
  | none => s
  | some j =>
      match transitionJob j st progress error with
      | none => s
      | some j2 => { s with jobs := setJob s.jobs id j2 }

/-- `db.delete_job`: remove the job row (results cascade elided). -/
def delete_job (s : DBState) (id : Nat) : DBState :=
  { s with jobs := s.jobs.filter (fun p => p.1 ≠ id) }

/-- `db.save_result`: append a result row. -/
def save_result (s : DBState) (r : DBResult) : DBState :=
  { s with results := r :: s.results }

end DB

namespace JobManager

/-- `JobManager.create_job` (src/jobs/manager.py lines 21-47): builds a Job
with the symbol uppercased, status PENDING, progress 0, stores it and
returns the store-assigned id. -/
def create_job (s : DBState) (symbol : String) (analysis_type : String)
    (parameters : Option (List (String × PVal))) : Nat × DBState :=
  DB.create_job s
    { symbol := symbol.toUpper
      analysis_type := analysis_type
      parameters := parameters
      status := .pending
      progress := 0
      error_message := none }

/-- `JobManager.get_job` (src/jobs/manager.py lines 72-75). -/
def get_job (s : DBState) (id : Nat) : Option Job :=
  DB.get_job s id

/-- `JobManager.update_status` (src/jobs/manager.py lines 102-118):
delegates to `db.update_job_status`. -/
def update_status (s : DBState) (id : Nat) (st : JobStatus)
    (progress : Option Int := none) (error : Option String := none) : DBState :=
  DB.update_job_status s id st progress error

/-- `JobManager.start_job` (src/jobs/manager.py lines 120-123). -/
def start_job (s : DBState) (id : Nat) : DBState :=
  DB.update_job_status s id .running (some 0) none

/-- `JobManager.complete_job` (src/jobs/manager.py lines 125-128). -/
def complete_job (s : DBState) (id : Nat) : DBState :=
  DB.update_job_status s id .completed (some 100) none

/-- `JobManager.fail_job` (src/jobs/manager.py lines 130-133). -/
def fail_job (s : DBState) (id : Nat) (error : String) : DBState :=
  DB.update_job_status s id .failed none (some error)

/-- `JobManager.cancel_job` (src/jobs/manager.py lines 135-142). -/
def cancel_job (s : DBState) (id : Nat) : Bool × DBState :=
  match DB.get_job s id with
  | some j =>
      if j.status = .pending then (true, DB.update_job_status s id .cancelled none none)
      else (false, s)
  | none => (false, s)

/-- `JobManager.save_result` (src/jobs/manager.py lines 149-170): copies
summary and confidence of the analyzer result into a stored result row. -/
def save_result (s : DBState) (id : Nat) (r : AnalysisResult) : DBState :=
  DB.save_result s { job_id := id, summary := r.summary, confidence := r.confidence }

/-- `JobManager.delete_job` (src/jobs/manager.py lines 144-147). -/
def delete_job (s : DBState) (id : Nat) : DBState :=
  DB.delete_job s id

end JobManager

/-- An analyzer as the executor sees it: `analyze` may raise (the executor
guards the call with a catch-all), so the call is embedded as `Except`
with the exception's message `str(e)` on the error side. -/
def AnalyzerFun := AnalysisParameters → Except String AnalysisResult

/-- The executor's external collaborators (spec §6): the data provider
(`DataProvider.get_market_data`; failures surface as an absent/empty
dataset, never an exception) and the analyzer registry
(`get_analyzer`: name → instance or not-found). -/
structure Env where
  marketData : String → Option Dataset
  analyzers : String → Option AnalyzerFun

/-- Timeframe resolution of `JobExecutor.execute_job`
(src/jobs/executor.py lines 69-73): default MEDIUM; an entry
`parameters['timeframe']` whose value is one of the enum values
overrides it. -/
def resolveTimeframe (parameters : Option (List (String × PVal))) : AnalysisTimeframe :=
  match parameters with
  | none => .medium
  | some ps =>
      match pget ps "timeframe" with
      | some (.pstr tf) =>
          if tf = "short" then .short
          else if tf = "medium" then .medium
          else if tf = "long" then .long
          else .medium
      | _ => .medium

namespace JobExecutor

/-- `JobExecutor.execute_job` (src/jobs/executor.py lines 30-96).
Returns the boolean result plus the store state after the call.  The one
source of exceptions inside the `try` block is the analyzer call (data
provider failures surface as an empty dataset per spec §6, and the store
collaborators are total), so the catch-all `except Exception` shows up as
the `Except.error` branch of the analyzer call. -/
def execute_job (env : Env) (s : DBState) (job_id : Nat) : Bool × DBState :=
  match JobManager.get_job s job_id with
  | none => (false, s)
  | some job =>
      if job.status ≠ .pending then (false, s)
      else
        let s := JobManager.start_job s job_id
        let s := JobManager.update_status s job_id .running (some 5) none
        match env.marketData job.symbol with
        | none => (false, JobManager.fail_job s job_id "Keine Marktdaten verfügbar")
        | some data =>
            if data.isEmpty then
              (false, JobManager.fail_job s job_id "Keine Marktdaten verfügbar")
            else
              let s := JobManager.update_status s job_id .running (some 20) none
              match env.analyzers job.analysis_type with
              | none =>
                  (false, JobManager.fail_job s job_id
                    ("Analyzer '" ++ job.analysis_type ++ "' nicht gefunden"))
              | some analyzer =>
                  let s := JobManager.update_status s job_id .running (some 30) none
                  let params : AnalysisParameters :=
                    { symbol := job.symbol
                      data := data
                      timeframe := resolveTimeframe job.parameters
                      custom_params := job.parameters.getD [] }
                  let s := JobManager.update_status s job_id .running (some 40) none
                  match analyzer params with
                  | .error e => (false, JobManager.fail_job s job_id e)
                  | .ok result =>
                      let s := JobManager.update_status s job_id .running (some 90) none
                      let s := JobManager.save_result s job_id result
                      let s := JobManager.complete_job s job_id
                      (true, s)

end JobExecutor

/-- The operations through which job state is ever mutated (spec §3:
jobs are mutated only through the Job Manager's calls; the executor and
the UI layer go through these). -/
inductive Op where
  | createJob (symbol analysis_type : String) (parameters : Option (List (String × PVal)))
  | updateStatus (id : Nat) (st : JobStatus) (progress : Option Int) (error : Option String)
  | startJob (id : Nat)
  | completeJob (id : Nat)
  | failJob (id : Nat) (error : String)
  | cancelJob (id : Nat)
  | deleteJob (id : Nat)
  | saveResult (id : Nat) (r : AnalysisResult)

/-- Apply one Job Manager operation to the store state. -/
def applyOp (s : DBState) : Op → DBState
  | .createJob sym t ps => (JobManager.create_job s sym t ps).2
  | .updateStatus id st p e => JobManager.update_status s id st p e
  | .startJob id => JobManager.start_job s id
  | .completeJob id => JobManager.complete_job s id
  | .failJob id e => JobManager.fail_job s id e
  | .cancelJob id => (JobManager.cancel_job s id).2
  | .deleteJob id => JobManager.delete_job s id
  | .saveResult id r => JobManager.save_result s id r

/-- Apply a sequence of Job Manager operations, first to last. -/
def applyOps (ops : List Op) (s : DBState) : DBState :=
  match ops with
  | [] => s
  | op :: rest => applyOps rest (applyOp s op)

/-- Store well-formedness: every stored job id is below the store's id
counter (ids are assigned by the counter, so this holds for every state
the store can actually reach). -/
def wfState (s : DBState) : Bool :=
  s.jobs.all (fun p => p.1 < s.nextId)

namespace Sentiment

/-- Aggregated sentiment metrics (`SentimentAnalyzer._aggregate_sentiment`,
src/analysis/nlp/sentiment.py lines 219-241).  `np.std` is carried as its
square `varPop` (population variance, `ddof=0`) so the embedding stays in
ℚ; every comparison the code makes against the std is expressed against
the squared threshold below.  The unused `median` is elided. -/
structure Metrics where
  average : ℚ
  varPop : ℚ
  positive_count : Nat
  negative_count : Nat
  neutral_count : Nat
  positive_pct : ℚ
  negative_pct : ℚ
  neutral_pct : ℚ
  total_articles : Nat

/-- `SentimentAnalyzer._aggregate_sentiment` over the article scores. -/
def aggregate_sentiment (scores : List ℚ) : Metrics :=
  if scores.isEmpty then
    { average := 0, varPop := 0, positive_count := 0, negative_count := 0
      neutral_count := 0, positive_pct := 0, negative_pct := 0
      neutral_pct := 0, total_articles := 0 }
  else
    let n : Nat := scores.length
    let avg : ℚ := scores.sum / n
    let varPop : ℚ := ((scores.map (fun x => (x - avg) ^ 2)).sum) / n
    let positive : Nat := (scores.filter (fun x => x > 3 / 10)).length
    let negative : Nat := (scores.filter (fun x => x < -(3 / 10))).length
    let neutral : Nat := n - positive - negative
    { average := avg
      varPop := varPop
      positive_count := positive
      negative_count := negative
      neutral_count := neutral
      positive_pct := (positive : ℚ) / n * 100
      negative_pct := (negative : ℚ) / n * 100
      neutral_pct := (neutral : ℚ) / n * 100
      total_articles := n }

/-- `SentimentAnalyzer._build_result` (src/analysis/nlp/sentiment.py lines
243-345).  The comparisons `std < 0.3` / `std > 0.5` are expressed against
the squared thresholds (std = √varPop is nonnegative, so they are
equivalent); the numeric interpolation inside the summary string and the
top-headline payload of `data` (untouched by any claim) are elided. -/
def build_result (symbol : String) (metrics : Metrics) : AnalysisResult :=
  let avg := metrics.average
  let overall : String :=
    if avg > 3 / 10 then "bullish" else if avg < -(3 / 10) then "bearish" else "neutral"
  let recommendation : String :=
    if avg > 3 / 10 then "buy" else if avg < -(3 / 10) then "sell" else "hold"
  let confidence0 : ℚ :=
    if metrics.varPop < (3 / 10) ^ 2 then 7 / 10 + |avg| * (2 / 10)
    else 1 / 2 + |avg| * (1 / 10)
  let confidence : ℚ := min (85 / 100) confidence0
  let warnings : List String :=
    (if metrics.varPop > (1 / 2) ^ 2 then ["Hohe Varianz im Sentiment - gemischte Signale"] else [])
      ++ (if metrics.total_articles < 5 then ["Wenige Artikel analysiert - Ergebnis unsicher"] else [])
  { analysis_type := "sentiment"
    symbol := symbol
    summary := "Marktstimmung: " ++ overall
    confidence := confidence
    recommendation := some recommendation
    warnings := warnings }

/-- `SentimentAnalyzer.analyze` (src/analysis/nlp/sentiment.py lines
75-120).  The two black-box collaborators are parameters: `fetch` stands
for `_fetch_news` (network call; it catches internally and returns a
possibly-truncated title list, so it is total), and `analyzeArts` stands
for `_analyze_articles` (it may consult the `transformers` model, so the
scores it yields are environment-dependent, and an unexpected exception
anywhere inside the `try` block surfaces as its `Except.error` with
`str(e)`).  The error branch is the `except Exception` handler returning
`create_empty_result`. -/
def analyze (fetch : String → List String)
    (analyzeArts : List String → Except String (List ℚ))
    (params : AnalysisParameters) : AnalysisResult :=
  let symbol := params.symbol
  let include_news := ((pget params.custom_params "include_news").getD (.pbool true)).truthy
  let articles := if include_news then fetch symbol else []
  if articles.isEmpty then
    { analysis_type := "sentiment"
      symbol := symbol
      summary := "Keine Nachrichten gefunden für Sentiment-Analyse."
      confidence := 3 / 10
      recommendation := none
      warnings := ["Keine News verfügbar"] }
  else
    match analyzeArts articles with
    | .error e => create_empty_result "sentiment" symbol e
    | .ok scores => build_result symbol (aggregate_sentiment scores)

end Sentiment

namespace Arima

/-- Modelled from the spec: `BaseAnalyzer.validate_data` of the absent
`analysis/base.py`.  §4.1: `validate` returns a list of validation error
strings, empty meaning acceptable, and must check the minimum data points
(`ARIMAAnalyzer.min_data_points = 60`). -/
def validate_data (min_points : Nat) (d : Dataset) : List String :=
  if d.length < min_points then ["Zu wenige Datenpunkte für die Analyse"] else []

/-- `ARIMAAnalyzer.analyze` (src/analysis/statistical/arima.py lines
72-121).  The statistical internals are black-box parameters (spec §1
places each analyzer's algorithms out of scope): `fit` stands for
`_fit_arima`, which catches internally and returns `None` on failure, and
`forecastAndBuild` stands for `_forecast` + `_build_result`, whose
unexpected exception is the outer `except Exception` branch. -/
def analyze {Model : Type} (fit : List ℚ → Option Model)
    (forecastAndBuild : Model → Except String AnalysisResult)
    (params : AnalysisParameters) : AnalysisResult :=
  let symbol := params.symbol
  match validate_data 60 params.data with
  | e :: _ => create_empty_result "arima" symbol e
  | [] =>
      match fit params.data with
      | none => create_empty_result "arima" symbol "ARIMA-Modell konnte nicht erstellt werden"
      | some m =>
          match forecastAndBuild m with
          | .error e => create_empty_result "arima" symbol e
          | .ok r => r

end Arima

namespace AutoSelector

/-- `close.pct_change().dropna()`: relative change between consecutive
closes (the leading NaN of `pct_change` is the dropped element). -/
def pct_change (closes : List ℚ) : List ℚ :=
  (closes.zip closes.tail).map (fun p => (p.2 - p.1) / p.1)

/-- Mean of a list of rationals (`np.mean` / pandas mean). -/
def listMean (xs : List ℚ) : ℚ :=
  xs.sum / xs.length

/-- Sample variance, `ddof = 1` (the square of pandas `Series.std()`). -/
def sampleVar (xs : List ℚ) : ℚ :=
  ((xs.map (fun x => (x - listMean xs) ^ 2)).sum) / ((xs.length : ℚ) - 1)

/-- The squared annualized volatility of
`AutoMethodSelector._get_selection_reasons` (src/jobs/executor.py line
235): `volatility = returns.std() * np.sqrt(252)`, carried squared so the
embedding stays in ℚ.  The theorems state the condition as the source
writes it, `Real.sqrt (sampleVar returns) * Real.sqrt 252 > 3/10`, and
prove it equivalent to the squared comparison used here. -/
def annualizedVolSq (closes : List ℚ) : ℚ :=
  252 * sampleVar (pct_change closes)

/-- The 20-day trend of `AutoMethodSelector._get_selection_reasons`
(src/jobs/executor.py line 236):
`(close.iloc[-1] - close.iloc[-20]) / close.iloc[-20]`. -/
def trend20 (closes : List ℚ) : ℚ :=
  let n := closes.length
  (closes.getD (n - 1) 0 - closes.getD (n - 20) 0) / closes.getD (n - 20) 0

/-- `AutoMethodSelector._get_selection_reasons` (src/jobs/executor.py
lines 228-249): the justification mapping, with insertion order kept.
The comparison `volatility > 0.3` is expressed against the squared
threshold (equivalence with the real-valued comparison is proved in the
theorems); the numeric interpolation inside the justification strings is
elided. -/
def get_selection_reasons (closes : List ℚ) : List (String × String) :=
  let reasons : List (String × String) := []
  let reasons := if annualizedVolSq closes > (3 / 10) ^ 2 then
      reasons ++ [("monte_carlo", "Hohe Volatilität")] else reasons
  let reasons := if |trend20 closes| > 1 / 10 then
      reasons ++ [("arima", "Starker Trend")] else reasons
  let reasons := if |trend20 closes| < 1 / 20 then
      reasons ++ [("mean_reversion", "Seitwärtsbewegung erkannt")] else reasons
  reasons ++ [("sentiment", "Immer relevant für aktuelle Stimmung")]

end AutoSelector

/-- `cs` starts with `ns` (character-list version of `str.startswith`). -/
def charsStartWith : List Char → List Char → Bool
  | [], _ => true
  | _ :: _, [] => false
  | a :: as, b :: bs => a = b && charsStartWith as bs

/-- `ns` occurs as a contiguous run inside `hay` (character-list version
of Python's `in` on strings). -/
def charsHasSub : List Char → List Char → Bool
  | n, [] => n.isEmpty
  | n, c :: t => charsStartWith n (c :: t) || charsHasSub n t

/-- `needle in hay` for strings (Python substring containment). -/
def strHasSub (needle hay : String) : Bool :=
  charsHasSub needle.toList hay.toList

/-! ## Store lemmas -/

theorem lookupJob_setJob_self {l : List (Nat × Job)} {id : Nat} {j j2 : Job}
    (h : DB.lookupJob l id = some j) :
    DB.lookupJob (DB.setJob l id j2) id = some j2 := by
  induction l with
  | nil => simp [DB.lookupJob] at h
  | cons p rest ih =>
      obtain ⟨i, jb⟩ := p
      by_cases hi : i = id
      · simp [DB.lookupJob, DB.setJob, hi]
      · simp only [DB.lookupJob, if_neg hi] at h
        simp [DB.lookupJob, DB.setJob, hi, ih h]

theorem lookupJob_setJob_ne {l : List (Nat × Job)} {id id' : Nat} {j2 : Job}
    (h : id' ≠ id) :
    DB.lookupJob (DB.setJob l id j2) id' = DB.lookupJob l id' := by
  induction l with
  | nil => simp [DB.setJob]
  | cons p rest ih =>
      obtain ⟨i, jb⟩ := p
      by_cases hi : i = id
      · have hii : i ≠ id' := fun hc => h (hc.symm.trans hi)
        simp [DB.lookupJob, DB.setJob, hi, hii, h, Ne.symm h, ih]
      · by_cases hii : i = id'
        · simp [DB.lookupJob, DB.setJob, hi, hii, h, Ne.symm h]
        · simp [DB.lookupJob, DB.setJob, hi, hii, h, Ne.symm h, ih]

theorem transitionJob_none_of_not_legal {j : Job} {st : JobStatus}
    {p : Option Int} {e : Option String}
    (h : DB.legalTransition j.status st = false) :
    DB.transitionJob j st p e = none := by
  cases hs : j.status <;> cases st <;>
    simp_all [DB.legalTransition, DB.transitionJob]

theorem legalTransition_of_terminal {a b : JobStatus} (h : a.isTerminal = true) :
    DB.legalTransition a b = false := by
  cases a <;> cases b <;> simp_all [JobStatus.isTerminal, DB.legalTransition]

theorem update_noop_of_not_legal {s : DBState} {id : Nat} {st : JobStatus}
    {p : Option Int} {e : Option String} {j : Job}
    (hj : DB.get_job s id = some j)
    (h : DB.legalTransition j.status st = false) :
    DB.update_job_status s id st p e = s := by
  simp [DB.update_job_status, hj, transitionJob_none_of_not_legal h]

/-- C2: `JobManager.update_status` enforces the spec §4.2 state machine:
with the job stored under `id`, a target status not reachable over the
legal edge set leaves the store unchanged, and in particular any call on a
job whose status is COMPLETED, FAILED or CANCELLED is a rejected no-op
(the function is total, so the rejection is not a crash). -/
theorem update_status_rejects_illegal_transitions
    (s : DBState) (id : Nat) (st : JobStatus) (p : Option Int) (er : Option String)
    (j : Job) (hj : JobManager.get_job s id = some j) :
    (DB.legalTransition j.status st = false → JobManager.update_status s id st p er = s) ∧
    (j.status.isTerminal = true → JobManager.update_status s id st p er = s) := by
  constructor
  · intro h
    exact update_noop_of_not_legal hj h
  · intro h
    exact update_noop_of_not_legal hj (legalTransition_of_terminal h)

/-- Witness for C2: a COMPLETED job is not changed by an attempted
transition back to RUNNING. -/
theorem update_status_rejects_illegal_transitions_witness :
    JobManager.update_status
      { jobs := [(0, { symbol := "AAPL", analysis_type := "arima", parameters := none,
                       status := .completed, progress := 100, error_message := none })],
        results := [], nextId := 1 }
      0 .running (some 50) none
    =
      { jobs := [(0, { symbol := "AAPL", analysis_type := "arima", parameters := none,
                       status := .completed, progress := 100, error_message := none })],
        results := [], nextId := 1 } := by
  exact (update_status_rejects_illegal_transitions
    { jobs := [(0, { symbol := "AAPL", analysis_type := "arima", parameters := none,
                     status := .completed, progress := 100, error_message := none })],
      results := [], nextId := 1 }
    0 .running (some 50) none
    { symbol := "AAPL", analysis_type := "arima", parameters := none,
      status := .completed, progress := 100, error_message := none }
    (by rfl)).2 rfl

/-- C8: `JobManager.create_job` returns the store-assigned id and stores a
job whose symbol is the input uppercased, whose status is PENDING and
whose progress is 0.  The statement quantifies over every `analysis_type`
and mentions no registry: creation succeeds whether or not the name has a
Registry entry, since `create_job` never consults the Registry
(validation happens only at execution, src/jobs/manager.py lines 21-47). -/
theorem create_job_stores_pending_uppercase
    (s : DBState) (symbol analysis_type : String)
    (parameters : Option (List (String × PVal))) :
    (JobManager.create_job s symbol analysis_type parameters).1 = s.nextId ∧
    JobManager.get_job (JobManager.create_job s symbol analysis_type parameters).2
        (JobManager.create_job s symbol analysis_type parameters).1 =
      some { symbol := symbol.toUpper, analysis_type := analysis_type,
             parameters := parameters, status := .pending, progress := 0,
             error_message := none } := by
  refine ⟨rfl, ?_⟩
  simp [JobManager.create_job, JobManager.get_job, DB.create_job, DB.get_job, DB.lookupJob]

/-- C3: `execute_job` on a missing id or a non-PENDING job returns false
and leaves the entire store (all jobs and results) untouched
(src/jobs/executor.py lines 40-45). -/
theorem execute_job_guard_no_mutation (env : Env) (s : DBState) (id : Nat)
    (h : JobManager.get_job s id = none ∨
      ∃ j, JobManager.get_job s id = some j ∧ j.status ≠ .pending) :
    JobExecutor.execute_job env s id = (false, s) := by
  rcases h with h | ⟨j, hj, hs⟩
  · simp [JobExecutor.execute_job, h]
  · simp [JobExecutor.execute_job, hj, hs]

/-- Witness for C3: an empty store has no job 0, so `execute_job` returns
false with the store unchanged. -/
theorem execute_job_guard_no_mutation_witness :
    JobExecutor.execute_job
      { marketData := fun _ => none, analyzers := fun _ => none }
      { jobs := [], results := [], nextId := 0 } 0
    = (false, { jobs := [], results := [], nextId := 0 }) := by
  exact execute_job_guard_no_mutation _ _ 0 (Or.inl rfl)

/-- C10: whatever the news fetch yields and whatever scores the article
analysis produces, the confidence of `SentimentAnalyzer.analyze` is at
most 0.85: the no-articles branch returns 0.3, the success branch clamps
with `min(0.85, ...)`, and the failure branch returns the empty result
with confidence 0. -/
theorem sentiment_confidence_at_most_085
    (fetch : String → List String)
    (analyzeArts : List String → Except String (List ℚ))
    (params : AnalysisParameters) :
    (Sentiment.analyze fetch analyzeArts params).confidence ≤ 85 / 100 := by
  unfold Sentiment.analyze
  dsimp only
  split
  · split
    · norm_num
    · split
      · norm_num [create_empty_result]
      · unfold Sentiment.build_result
        dsimp only
        exact le_trans (min_le_left _ _) (by norm_num)
  · norm_num

/-! ## Substring lemmas -/

theorem charsStartWith_append (n post : List Char) :
    charsStartWith n (n ++ post) = true := by
  induction n with
  | nil => simp [charsStartWith]
  | cons a as ih => simp [charsStartWith, ih]

theorem charsHasSub_nil_left (hay : List Char) : charsHasSub [] hay = true := by
  cases hay <;> simp [charsHasSub, charsStartWith, List.isEmpty]

theorem charsHasSub_cons {n t : List Char} (c : Char)
    (h : charsHasSub n t = true) : charsHasSub n (c :: t) = true := by
  simp [charsHasSub, h]

theorem charsHasSub_append_self (n pre post : List Char) :
    charsHasSub n (pre ++ n ++ post) = true := by
  induction pre with
  | nil =>
      cases n with
      | nil => simpa using charsHasSub_nil_left post
      | cons a as =>
          have h1 := charsStartWith_append (a :: as) post
          simp only [charsHasSub, List.nil_append, Bool.or_eq_true]
          exact Or.inl h1
  | cons c pre ih => exact charsHasSub_cons c ih

theorem strHasSub_append_self (n pre post : String) :
    strHasSub n (pre ++ n ++ post) = true := by
  have hd : (pre ++ n ++ post).data = pre.data ++ n.data ++ post.data := by
    simp [String.data_append]
  show charsHasSub n.data (pre ++ n ++ post).data = true
  rw [hd]
  exact charsHasSub_append_self n.data pre.data post.data

/-! ## Executor step lemmas -/

theorem start_job_get {s : DBState} {id : Nat} {j : Job}
    (hj : DB.get_job s id = some j) (hp : j.status = .pending) :
    DB.get_job (JobManager.start_job s id) id =
      some { j with status := .running, progress := 0, error_message := none } := by
  have ht : DB.transitionJob j .running (some 0) none =
      some { j with status := .running, progress := 0, error_message := none } := by
    simp [DB.transitionJob, hp]
  show DB.get_job (DB.update_job_status s id .running (some 0) none) id = _
  simp only [DB.update_job_status, hj, ht]
  exact lookupJob_setJob_self hj

theorem update_running_progress_get {s : DBState} {id : Nat} {j : Job} {p : Int}
    (hj : DB.get_job s id = some j) (hr : j.status = .running)
    (hle : j.progress ≤ p) :
    DB.get_job (JobManager.update_status s id .running (some p) none) id =
      some { j with progress := p } := by
  have ht : DB.transitionJob j .running (some p) none = some { j with progress := p } := by
    simp [DB.transitionJob, hr, Option.getD, not_lt.mpr hle]
  show DB.get_job (DB.update_job_status s id .running (some p) none) id = _
  simp only [DB.update_job_status, hj, ht]
  exact lookupJob_setJob_self hj

theorem fail_job_get {s : DBState} {id : Nat} {j : Job} (msg : String)
    (hj : DB.get_job s id = some j) (hr : j.status = .running) :
    DB.get_job (JobManager.fail_job s id msg) id =
      some { j with status := .failed, error_message := some msg } := by
  have ht : DB.transitionJob j .failed none (some msg) =
      some { j with status := .failed, error_message := some msg } := by
    simp [DB.transitionJob, hr]
  show DB.get_job (DB.update_job_status s id .failed none (some msg)) id = _
  simp only [DB.update_job_status, hj, ht]
  exact lookupJob_setJob_self hj

/-- C5 (amended): a PENDING job whose symbol yields an absent or empty
dataset ends FAILED with `execute_job` returning false; the stored
message is the German `"Keine Marktdaten verfügbar"` — it contains the
substring `"Marktdaten"`, not the English `"data"` — and the progress is
the RUNNING value 5 reached before the data load
(src/jobs/executor.py lines 53-56). -/
theorem execute_job_empty_data_fails_german
    (env : Env) (s : DBState) (id : Nat) (j : Job)
    (hj : JobManager.get_job s id = some j) (hp : j.status = .pending)
    (hd : env.marketData j.symbol = none ∨ env.marketData j.symbol = some []) :
    (JobExecutor.execute_job env s id).1 = false ∧
    JobManager.get_job (JobExecutor.execute_job env s id).2 id =
      some { j with status := .failed, progress := 5,
                    error_message := some "Keine Marktdaten verfügbar" } ∧
    strHasSub "Marktdaten" "Keine Marktdaten verfügbar" = true := by
  have h0 := start_job_get hj hp
  have h5 := update_running_progress_get (p := 5) h0 rfl (by norm_num)
  have hfail := fail_job_get "Keine Marktdaten verfügbar" h5 rfl
  have hred : JobExecutor.execute_job env s id =
      (false, JobManager.fail_job
        (JobManager.update_status (JobManager.start_job s id) id .running (some 5) none)
        id "Keine Marktdaten verfügbar") := by
    rcases hd with hd | hd <;>
      simp [JobExecutor.execute_job, hj, hp, hd, List.isEmpty]
  refine ⟨by rw [hred], ?_, by rfl⟩
  rw [hred]
  exact hfail

/-- C6: a PENDING job with a non-empty dataset whose `analysis_type` has
no Registry entry ends FAILED with `execute_job` returning false and an
error message that names the missing analyzer — the `analysis_type`
string occurs verbatim inside it (src/jobs/executor.py lines 60-63). -/
theorem execute_job_missing_analyzer_names_it
    (env : Env) (s : DBState) (id : Nat) (j : Job) (d : Dataset)
    (hj : JobManager.get_job s id = some j) (hp : j.status = .pending)
    (hd : env.marketData j.symbol = some d) (hne : d ≠ [])
    (ha : env.analyzers j.analysis_type = none) :
    (JobExecutor.execute_job env s id).1 = false ∧
    JobManager.get_job (JobExecutor.execute_job env s id).2 id =
      some { j with status := .failed, progress := 20,
                    error_message :=
                      some ("Analyzer '" ++ j.analysis_type ++ "' nicht gefunden") } ∧
    strHasSub j.analysis_type
        ("Analyzer '" ++ j.analysis_type ++ "' nicht gefunden") = true := by
  have h0 := start_job_get hj hp
  have h5 := update_running_progress_get (p := 5) h0 rfl (by norm_num)
  have h20 := update_running_progress_get (p := 20) h5 rfl (by norm_num)
  have hfail := fail_job_get
    ("Analyzer '" ++ j.analysis_type ++ "' nicht gefunden") h20 rfl
  have hemp : d.isEmpty = false := by
    cases d with
    | nil => exact absurd rfl hne
    | cons a t => rfl
  have hred : JobExecutor.execute_job env s id =
      (false, JobManager.fail_job
        (JobManager.update_status
          (JobManager.update_status (JobManager.start_job s id) id .running (some 5) none)
          id .running (some 20) none)
        id ("Analyzer '" ++ j.analysis_type ++ "' nicht gefunden")) := by
    simp [JobExecutor.execute_job, hj, hp, hd, hemp, ha]
  refine ⟨by rw [hred], ?_, strHasSub_append_self _ _ _⟩
  rw [hred]
  exact hfail

/-- C4: once past the PENDING guard, any exception the analyzer call
raises is caught at the executor's boundary: `execute_job` returns the
boolean false (it is total, so nothing escapes), and the job is left
FAILED with `str(e)` as its `error_message`
(src/jobs/executor.py lines 47-96). -/
theorem execute_job_catches_exceptions
    (env : Env) (s : DBState) (id : Nat) (j : Job) (d : Dataset)
    (f : AnalyzerFun) (e : String)
    (hj : JobManager.get_job s id = some j) (hp : j.status = .pending)
    (hd : env.marketData j.symbol = some d) (hne : d ≠ [])
    (ha : env.analyzers j.analysis_type = some f)
    (herr : f { symbol := j.symbol, data := d,
                timeframe := resolveTimeframe j.parameters,
                custom_params := j.parameters.getD [] } = .error e) :
    (JobExecutor.execute_job env s id).1 = false ∧
    JobManager.get_job (JobExecutor.execute_job env s id).2 id =
      some { j with status := .failed, progress := 40, error_message := some e } := by
  have h0 := start_job_get hj hp
  have h5 := update_running_progress_get (p := 5) h0 rfl (by norm_num)
  have h20 := update_running_progress_get (p := 20) h5 rfl (by norm_num)
  have h30 := update_running_progress_get (p := 30) h20 rfl (by norm_num)
  have h40 := update_running_progress_get (p := 40) h30 rfl (by norm_num)
  have hfail := fail_job_get e h40 rfl
  have hemp : d.isEmpty = false := by
    cases d with
    | nil => exact absurd rfl hne
    | cons a t => rfl
  have hred : JobExecutor.execute_job env s id =
      (false, JobManager.fail_job
        (JobManager.update_status
          (JobManager.update_status
            (JobManager.update_status
              (JobManager.update_status (JobManager.start_job s id) id .running (some 5) none)
              id .running (some 20) none)
            id .running (some 30) none)
          id .running (some 40) none)
        id e) := by
    simp [JobExecutor.execute_job, hj, hp, hd, hemp, ha, herr]
  refine ⟨by rw [hred], ?_⟩
  rw [hred]
  exact hfail

/-- Counterexample for C5 as stated: the scenario of the spec (§8,
scenario 2) — a job created for "ZZZZ" whose data provider returns an
empty dataset — does end FAILED with `execute_job` returning false, but
the stored message is the German `"Keine Marktdaten verfügbar"`: it is
not `"no market data available"` and does not contain the substring
`"data"`. -/
theorem execute_job_empty_data_message_counterexample :
    (JobExecutor.execute_job
        { marketData := fun _ => some [],
          analyzers := fun _ => some (fun _ => .ok (create_empty_result "dummy_ok" "ZZZZ" "ok")) }
        (JobManager.create_job { jobs := [], results := [], nextId := 1 } "ZZZZ" "dummy_ok" none).2
        (JobManager.create_job { jobs := [], results := [], nextId := 1 } "ZZZZ" "dummy_ok" none).1).1
      = false ∧
    (DB.get_job
        (JobExecutor.execute_job
          { marketData := fun _ => some [],
            analyzers := fun _ => some (fun _ => .ok (create_empty_result "dummy_ok" "ZZZZ" "ok")) }
          (JobManager.create_job { jobs := [], results := [], nextId := 1 } "ZZZZ" "dummy_ok" none).2
          (JobManager.create_job { jobs := [], results := [], nextId := 1 } "ZZZZ" "dummy_ok" none).1).2
        1).map Job.status = some .failed ∧
    (DB.get_job
        (JobExecutor.execute_job
          { marketData := fun _ => some [],
            analyzers := fun _ => some (fun _ => .ok (create_empty_result "dummy_ok" "ZZZZ" "ok")) }
          (JobManager.create_job { jobs := [], results := [], nextId := 1 } "ZZZZ" "dummy_ok" none).2
          (JobManager.create_job { jobs := [], results := [], nextId := 1 } "ZZZZ" "dummy_ok" none).1).2
        1).map Job.error_message = some (some "Keine Marktdaten verfügbar") ∧
    strHasSub "data" "Keine Marktdaten verfügbar" = false ∧
    "Keine Marktdaten verfügbar" ≠ "no market data available" := by
  refine ⟨rfl, rfl, rfl, rfl, by decide⟩

/-- Witness for C5 (amended) at a concrete pending job whose data
provider yields an empty dataset. -/
theorem execute_job_empty_data_fails_german_witness :
    (JobExecutor.execute_job
        { marketData := fun _ => some [], analyzers := fun _ => none }
        { jobs := [(1, { symbol := "AAPL", analysis_type := "arima", parameters := none,
                         status := .pending, progress := 0, error_message := none })],
          results := [], nextId := 2 } 1).1 = false ∧
    JobManager.get_job
        (JobExecutor.execute_job
          { marketData := fun _ => some [], analyzers := fun _ => none }
          { jobs := [(1, { symbol := "AAPL", analysis_type := "arima", parameters := none,
                           status := .pending, progress := 0, error_message := none })],
            results := [], nextId := 2 } 1).2 1 =
      some { symbol := "AAPL", analysis_type := "arima", parameters := none,
             status := .failed, progress := 5,
             error_message := some "Keine Marktdaten verfügbar" } ∧
    strHasSub "Marktdaten" "Keine Marktdaten verfügbar" = true := by
  exact execute_job_empty_data_fails_german
    { marketData := fun _ => some [], analyzers := fun _ => none }
    { jobs := [(1, { symbol := "AAPL", analysis_type := "arima", parameters := none,
                     status := .pending, progress := 0, error_message := none })],
      results := [], nextId := 2 } 1
    { symbol := "AAPL", analysis_type := "arima", parameters := none,
      status := .pending, progress := 0, error_message := none }
    rfl rfl (Or.inr rfl)

/-- Witness for C6 at a concrete pending job with analysis_type
"not_registered" (spec §8, scenario 3). -/
theorem execute_job_missing_analyzer_names_it_witness :
    (JobExecutor.execute_job
        { marketData := fun _ => some [100], analyzers := fun _ => none }
        { jobs := [(1, { symbol := "AAPL", analysis_type := "not_registered", parameters := none,
                         status := .pending, progress := 0, error_message := none })],
          results := [], nextId := 2 } 1).1 = false ∧
    JobManager.get_job
        (JobExecutor.execute_job
          { marketData := fun _ => some [100], analyzers := fun _ => none }
          { jobs := [(1, { symbol := "AAPL", analysis_type := "not_registered", parameters := none,
                           status := .pending, progress := 0, error_message := none })],
            results := [], nextId := 2 } 1).2 1 =
      some { symbol := "AAPL", analysis_type := "not_registered", parameters := none,
             status := .failed, progress := 20,
             error_message := some "Analyzer 'not_registered' nicht gefunden" } ∧
    strHasSub "not_registered" "Analyzer 'not_registered' nicht gefunden" = true := by
  exact execute_job_missing_analyzer_names_it
    { marketData := fun _ => some [100], analyzers := fun _ => none }
    { jobs := [(1, { symbol := "AAPL", analysis_type := "not_registered", parameters := none,
                     status := .pending, progress := 0, error_message := none })],
      results := [], nextId := 2 } 1
    { symbol := "AAPL", analysis_type := "not_registered", parameters := none,
      status := .pending, progress := 0, error_message := none }
    [100] rfl rfl rfl (by decide) rfl

/-- Witness for C4 at a concrete pending job whose analyzer raises
(message "boom"). -/
theorem execute_job_catches_exceptions_witness :
    (JobExecutor.execute_job
        { marketData := fun _ => some [100],
          analyzers := fun _ => some (fun _ => .error "boom") }
        { jobs := [(1, { symbol := "AAPL", analysis_type := "arima", parameters := none,
                         status := .pending, progress := 0, error_message := none })],
          results := [], nextId := 2 } 1).1 = false ∧
    JobManager.get_job
        (JobExecutor.execute_job
          { marketData := fun _ => some [100],
            analyzers := fun _ => some (fun _ => .error "boom") }
          { jobs := [(1, { symbol := "AAPL", analysis_type := "arima", parameters := none,
                           status := .pending, progress := 0, error_message := none })],
            results := [], nextId := 2 } 1).2 1 =
      some { symbol := "AAPL", analysis_type := "arima", parameters := none,
             status := .failed, progress := 40, error_message := some "boom" } := by
  exact execute_job_catches_exceptions
    { marketData := fun _ => some [100],
      analyzers := fun _ => some (fun _ => .error "boom") }
    { jobs := [(1, { symbol := "AAPL", analysis_type := "arima", parameters := none,
                     status := .pending, progress := 0, error_message := none })],
      results := [], nextId := 2 } 1
    { symbol := "AAPL", analysis_type := "arima", parameters := none,
      status := .pending, progress := 0, error_message := none }
    [100] (fun _ => .error "boom") "boom"
    rfl rfl rfl (by decide) rfl rfl

/-! ## Progress monotonicity while RUNNING (C7) -/

/-- A job id that can never be RUNNING again: it is below the store's id
counter (so the counter can never re-assign it) and it is either absent
or in a terminal status. -/
def deadAt (s : DBState) (id : Nat) : Prop :=
  id < s.nextId ∧
    (DB.get_job s id = none ∨
      ∃ j, DB.get_job s id = some j ∧ j.status.isTerminal = true)

theorem update_noop_of_get_none {s : DBState} {id : Nat} (st : JobStatus)
    (p : Option Int) (e : Option String) (h : DB.get_job s id = none) :
    DB.update_job_status s id st p e = s := by
  simp [DB.update_job_status, h]

theorem update_noop_of_transition_none {s : DBState} {id : Nat} {j : Job}
    {st : JobStatus} {p : Option Int} {e : Option String}
    (hj : DB.get_job s id = some j) (ht : DB.transitionJob j st p e = none) :
    DB.update_job_status s id st p e = s := by
  simp [DB.update_job_status, hj, ht]

theorem update_noop_of_terminal {s : DBState} {id : Nat} {j : Job} (st : JobStatus)
    (p : Option Int) (e : Option String) (hj : DB.get_job s id = some j)
    (h : j.status.isTerminal = true) :
    DB.update_job_status s id st p e = s :=
  update_noop_of_not_legal hj (legalTransition_of_terminal h)

theorem update_nextId (s : DBState) (id : Nat) (st : JobStatus)
    (p : Option Int) (e : Option String) :
    (DB.update_job_status s id st p e).nextId = s.nextId := by
  unfold DB.update_job_status
  split
  · rfl
  · split
    · rfl
    · rfl

theorem get_update_ne {s : DBState} {id id2 : Nat} (st : JobStatus)
    (p : Option Int) (e : Option String) (h : id ≠ id2) :
    DB.get_job (DB.update_job_status s id2 st p e) id = DB.get_job s id := by
  unfold DB.update_job_status
  split
  · rfl
  · split
    · rfl
    · exact lookupJob_setJob_ne h

theorem lookupJob_mem {l : List (Nat × Job)} {id : Nat} {j : Job}
    (h : DB.lookupJob l id = some j) : (id, j) ∈ l := by
  induction l with
  | nil => simp [DB.lookupJob] at h
  | cons p rest ih =>
      obtain ⟨i, jb⟩ := p
      by_cases hi : i = id
      · subst hi
        simp only [DB.lookupJob, if_pos rfl] at h
        obtain rfl := Option.some.inj h
        exact List.mem_cons_self _ _
      · simp only [DB.lookupJob, if_neg hi] at h
        exact List.mem_cons_of_mem _ (ih h)

theorem id_lt_nextId_of_get {s : DBState} {id : Nat} {j : Job}
    (hwf : wfState s = true) (hj : DB.get_job s id = some j) : id < s.nextId := by
  have hm := lookupJob_mem hj
  simp only [wfState, List.all_eq_true, decide_eq_true_eq] at hwf
  exact hwf (id, j) hm

theorem mem_setJob {l : List (Nat × Job)} {id : Nat} {j2 : Job} {p : Nat × Job}
    (h : p ∈ DB.setJob l id j2) : ∃ q ∈ l, p.1 = q.1 := by
  induction l with
  | nil => simp [DB.setJob] at h
  | cons q rest ih =>
      obtain ⟨i, jb⟩ := q
      by_cases hi : i = id
      · simp only [DB.setJob, if_pos hi] at h
        rcases List.mem_cons.mp h with h | h
        · exact ⟨(i, jb), List.mem_cons_self _ _, by rw [h]⟩
        · obtain ⟨q', hq', hpq⟩ := ih h
          exact ⟨q', List.mem_cons_of_mem _ hq', hpq⟩
      · simp only [DB.setJob, if_neg hi] at h
        rcases List.mem_cons.mp h with h | h
        · exact ⟨(i, jb), List.mem_cons_self _ _, by rw [h]⟩
        · obtain ⟨q', hq', hpq⟩ := ih h
          exact ⟨q', List.mem_cons_of_mem _ hq', hpq⟩

theorem wf_update (s : DBState) (id2 : Nat) (st : JobStatus) (p : Option Int)
    (e : Option String) (hwf : wfState s = true) :
    wfState (DB.update_job_status s id2 st p e) = true := by
  unfold DB.update_job_status
  split
  · exact hwf
  · split
    · exact hwf
    · simp only [wfState, List.all_eq_true, decide_eq_true_eq] at hwf ⊢
      intro q hq
      obtain ⟨q', hq', hqq⟩ := mem_setJob hq
      rw [hqq]
      exact hwf q' hq'

theorem wf_applyOp {s : DBState} (op : Op) (hwf : wfState s = true) :
    wfState (applyOp s op) = true := by
  cases op with
  | createJob sym t ps =>
      simp only [applyOp, JobManager.create_job, DB.create_job, wfState,
        List.all_eq_true, decide_eq_true_eq] at hwf ⊢
      intro q hq
      rcases List.mem_cons.mp hq with h | h
      · rw [h]; omega
      · have := hwf q h; omega
  | updateStatus id2 st p e => exact wf_update s id2 st p e hwf
  | startJob id2 => exact wf_update s id2 .running (some 0) none hwf
  | completeJob id2 => exact wf_update s id2 .completed (some 100) none hwf
  | failJob id2 e => exact wf_update s id2 .failed none (some e) hwf
  | cancelJob id2 =>
      show wfState (JobManager.cancel_job s id2).2 = true
      unfold JobManager.cancel_job
      split
      · split
        · exact wf_update s id2 .cancelled none none hwf
        · exact hwf
      · exact hwf
  | deleteJob id2 =>
      simp only [applyOp, JobManager.delete_job, DB.delete_job, wfState,
        List.all_eq_true, decide_eq_true_eq] at hwf ⊢
      intro q hq
      exact hwf q (List.mem_of_mem_filter hq)
  | saveResult id2 r => exact hwf

theorem dead_update {s : DBState} {id : Nat} (id2 : Nat) (st : JobStatus)
    (p : Option Int) (e : Option String) (h : deadAt s id) :
    deadAt (DB.update_job_status s id2 st p e) id := by
  obtain ⟨hlt, hrest⟩ := h
  by_cases hii : id = id2
  · subst hii
    rcases hrest with hn | ⟨j, hj, hterm⟩
    · rw [update_noop_of_get_none st p e hn]
      exact ⟨hlt, Or.inl hn⟩
    · rw [update_noop_of_terminal st p e hj hterm]
      exact ⟨hlt, Or.inr ⟨j, hj, hterm⟩⟩
  · refine ⟨by rw [update_nextId]; exact hlt, ?_⟩
    rw [get_update_ne st p e hii]
    exact hrest

theorem lookupJob_filter_self (l : List (Nat × Job)) (id : Nat) :
    DB.lookupJob (l.filter (fun p => p.1 ≠ id)) id = none := by
  induction l with
  | nil => rfl
  | cons q rest ih =>
      obtain ⟨i, jb⟩ := q
      by_cases hi : i = id
      · simpa [List.filter_cons, hi] using ih
      · simpa [List.filter_cons, hi, DB.lookupJob] using ih

theorem lookupJob_filter_ne {l : List (Nat × Job)} {id id2 : Nat} (h : id ≠ id2) :
    DB.lookupJob (l.filter (fun p => p.1 ≠ id2)) id = DB.lookupJob l id := by
  induction l with
  | nil => rfl
  | cons q rest ih =>
      obtain ⟨i, jb⟩ := q
      by_cases hi2 : i = id2
      · have hni : i ≠ id := fun hc => h (hc.symm.trans hi2)
        simpa [List.filter_cons, hi2, DB.lookupJob, hni, Ne.symm h] using ih
      · by_cases hii : i = id
        · simp [List.filter_cons, hi2, DB.lookupJob, hii, h]
        · simpa [List.filter_cons, hi2, DB.lookupJob, hii, h] using ih

theorem dead_applyOp {s : DBState} {id : Nat} (op : Op) (h : deadAt s id) :
    deadAt (applyOp s op) id := by
  obtain ⟨hlt, hrest⟩ := h
  cases op with
  | createJob sym t ps =>
      refine ⟨?_, ?_⟩
      · show id < s.nextId + 1
        omega
      · have hne : s.nextId ≠ id := by omega
        have hg : DB.get_job (applyOp s (.createJob sym t ps)) id = DB.get_job s id := by
          simp [applyOp, JobManager.create_job, DB.create_job, DB.get_job, DB.lookupJob, hne]
        rw [hg]
        exact hrest
  | updateStatus id2 st p e => exact dead_update id2 st p e ⟨hlt, hrest⟩
  | startJob id2 => exact dead_update id2 .running (some 0) none ⟨hlt, hrest⟩
  | completeJob id2 => exact dead_update id2 .completed (some 100) none ⟨hlt, hrest⟩
  | failJob id2 e => exact dead_update id2 .failed none (some e) ⟨hlt, hrest⟩
  | cancelJob id2 =>
      show deadAt (JobManager.cancel_job s id2).2 id
      unfold JobManager.cancel_job
      split
      · split
        · exact dead_update id2 .cancelled none none ⟨hlt, hrest⟩
        · exact ⟨hlt, hrest⟩
      · exact ⟨hlt, hrest⟩
  | deleteJob id2 =>
      refine ⟨hlt, ?_⟩
      by_cases hii : id = id2
      · subst hii
        exact Or.inl (lookupJob_filter_self s.jobs id)
      · have hg : DB.get_job (applyOp s (.deleteJob id2)) id = DB.get_job s id :=
          lookupJob_filter_ne hii
        rw [hg]
        exact hrest
  | saveResult id2 r => exact ⟨hlt, hrest⟩

theorem dead_applyOps {s : DBState} {id : Nat} (ops : List Op) (h : deadAt s id) :
    deadAt (applyOps ops s) id := by
  induction ops generalizing s with
  | nil => exact h
  | cons op rest ih => exact ih (dead_applyOp op h)

theorem running_update {s : DBState} {id : Nat} {j : Job}
    (hwf : wfState s = true) (hj : DB.get_job s id = some j)
    (hr : j.status = .running)
    (st : JobStatus) (p : Option Int) (e : Option String) :
    (∃ j1, DB.get_job (DB.update_job_status s id st p e) id = some j1 ∧
      j1.status = .running ∧ j.progress ≤ j1.progress) ∨
    deadAt (DB.update_job_status s id st p e) id := by
  have hlt : id < s.nextId := id_lt_nextId_of_get hwf hj
  cases st with
  | pending =>
      left
      have ht : DB.transitionJob j .pending p e = none := by
        simp [DB.transitionJob, hr]
      rw [update_noop_of_transition_none hj ht]
      exact ⟨j, hj, hr, le_refl _⟩
  | running =>
      by_cases hp : p.getD j.progress < j.progress
      · left
        have ht : DB.transitionJob j .running p e = none := by
          simp [DB.transitionJob, hr, hp]
        rw [update_noop_of_transition_none hj ht]
        exact ⟨j, hj, hr, le_refl _⟩
      · left
        have ht : DB.transitionJob j .running p e =
            some { j with progress := p.getD j.progress } := by
          simp [DB.transitionJob, hr, hp]
        refine ⟨{ j with progress := p.getD j.progress }, ?_, hr, not_lt.mp hp⟩
        simp only [DB.update_job_status, hj, ht]
        exact lookupJob_setJob_self hj
  | completed =>
      right
      have ht : DB.transitionJob j .completed p e =
          some { j with status := .completed, progress := 100, error_message := none } := by
        simp [DB.transitionJob, hr]
      refine ⟨by rw [update_nextId]; exact hlt,
        Or.inr ⟨{ j with status := .completed, progress := 100, error_message := none },
          ?_, rfl⟩⟩
      simp only [DB.update_job_status, hj, ht]
      exact lookupJob_setJob_self hj
  | failed =>
      right
      have ht : DB.transitionJob j .failed p e =
          some { j with status := .failed, error_message := e } := by
        simp [DB.transitionJob, hr]
      refine ⟨by rw [update_nextId]; exact hlt,
        Or.inr ⟨{ j with status := .failed, error_message := e }, ?_, rfl⟩⟩
      simp only [DB.update_job_status, hj, ht]
      exact lookupJob_setJob_self hj
  | cancelled =>
      left
      have ht : DB.transitionJob j .cancelled p e = none := by
        simp [DB.transitionJob, hr]
      rw [update_noop_of_transition_none hj ht]
      exact ⟨j, hj, hr, le_refl _⟩

theorem running_applyOp {s : DBState} {id : Nat} {j : Job} (op : Op)
    (hwf : wfState s = true) (hj : DB.get_job s id = some j)
    (hr : j.status = .running) :
    (∃ j1, DB.get_job (applyOp s op) id = some j1 ∧
      j1.status = .running ∧ j.progress ≤ j1.progress) ∨
    deadAt (applyOp s op) id := by
  cases op with
  | createJob sym t ps =>
      left
      have hlt : id < s.nextId := id_lt_nextId_of_get hwf hj
      have hne : s.nextId ≠ id := by omega
      have hg : DB.get_job (applyOp s (.createJob sym t ps)) id = DB.get_job s id := by
        simp [applyOp, JobManager.create_job, DB.create_job, DB.get_job, DB.lookupJob, hne]
      exact ⟨j, hg.trans hj, hr, le_refl _⟩
  | updateStatus id2 st p e =>
      by_cases hii : id = id2
      · subst hii
        exact running_update hwf hj hr st p e
      · left
        exact ⟨j, (get_update_ne st p e hii).trans hj, hr, le_refl _⟩
  | startJob id2 =>
      by_cases hii : id = id2
      · subst hii
        exact running_update hwf hj hr .running (some 0) none
      · left
        exact ⟨j, (get_update_ne .running (some 0) none hii).trans hj, hr, le_refl _⟩
  | completeJob id2 =>
      by_cases hii : id = id2
      · subst hii
        exact running_update hwf hj hr .completed (some 100) none
      · left
        exact ⟨j, (get_update_ne .completed (some 100) none hii).trans hj, hr, le_refl _⟩
  | failJob id2 e =>
      by_cases hii : id = id2
      · subst hii
        exact running_update hwf hj hr .failed none (some e)
      · left
        exact ⟨j, (get_update_ne .failed none (some e) hii).trans hj, hr, le_refl _⟩
  | cancelJob id2 =>
      by_cases hii : id = id2
      · subst hii
        left
        have hcs : (JobManager.cancel_job s id).2 = s := by
          simp [JobManager.cancel_job, hj, hr]
        show ∃ j1, DB.get_job (JobManager.cancel_job s id).2 id = some j1 ∧
          j1.status = .running ∧ j.progress ≤ j1.progress
        rw [hcs]
        exact ⟨j, hj, hr, le_refl _⟩
      · left
        have hg : DB.get_job (JobManager.cancel_job s id2).2 id = DB.get_job s id := by
          unfold JobManager.cancel_job
          split
          · split
            · exact get_update_ne .cancelled none none hii
            · rfl
          · rfl
        exact ⟨j, hg.trans hj, hr, le_refl _⟩
  | deleteJob id2 =>
      by_cases hii : id = id2
      · subst hii
        right
        have hlt : id < s.nextId := id_lt_nextId_of_get hwf hj
        have hg : DB.get_job (applyOp s (.deleteJob id)) id = none :=
          lookupJob_filter_self s.jobs id
        exact ⟨hlt, Or.inl hg⟩
      · left
        exact ⟨j, (lookupJob_filter_ne hii).trans hj, hr, le_refl _⟩
  | saveResult id2 r =>
      left
      exact ⟨j, hj, hr, le_refl _⟩

/-- C7: over every sequence of Job Manager operations on a well-formed
store, a job observed RUNNING before and after has a progress that did
not decrease — no operation lowers progress while the job is RUNNING.
(The §3 invariant; the spec-modelled `db.update_job_status` maintains it
by rejecting lower progress reports while RUNNING, and once a job leaves
RUNNING its id can never be RUNNING again.) -/
theorem running_progress_monotone (ops : List Op) (s : DBState) (id : Nat)
    (j j' : Job) (hwf : wfState s = true)
    (hj : JobManager.get_job s id = some j) (hr : j.status = .running)
    (hj' : JobManager.get_job (applyOps ops s) id = some j')
    (hr' : j'.status = .running) :
    j.progress ≤ j'.progress := by
  induction ops generalizing s j with
  | nil =>
      obtain rfl := Option.some.inj (hj.symm.trans hj')
      exact le_refl _
  | cons op rest ih =>
      rcases running_applyOp op hwf hj hr with ⟨j1, hg1, hr1, hle⟩ | hdead
      · exact le_trans hle (ih (applyOp s op) j1 (wf_applyOp op hwf) hg1 hr1 hj')
      · exfalso
        have hd := dead_applyOps rest hdead
        rcases hd.2 with hn | ⟨jt, hjt, hterm⟩
        · exact Option.noConfusion (hj'.symm.trans hn)
        · obtain rfl := Option.some.inj (hj'.symm.trans hjt)
          rw [hr'] at hterm
          simp [JobStatus.isTerminal] at hterm

/-- Witness for C7: a RUNNING job at progress 5 updated to progress 50 is
still RUNNING with a not-smaller progress. -/
theorem running_progress_monotone_witness :
    ({ symbol := "AAPL", analysis_type := "arima", parameters := none,
       status := .running, progress := 5, error_message := none } : Job).progress ≤
    ({ symbol := "AAPL", analysis_type := "arima", parameters := none,
       status := .running, progress := 50, error_message := none } : Job).progress := by
  exact running_progress_monotone [Op.updateStatus 1 .running (some 50) none]
    { jobs := [(1, { symbol := "AAPL", analysis_type := "arima", parameters := none,
                     status := .running, progress := 5, error_message := none })],
      results := [], nextId := 2 } 1
    { symbol := "AAPL", analysis_type := "arima", parameters := none,
      status := .running, progress := 5, error_message := none }
    { symbol := "AAPL", analysis_type := "arima", parameters := none,
      status := .running, progress := 50, error_message := none }
    (by decide) rfl rfl (by decide) rfl

/-! ## Analyzer totality (C1) -/

/-- C1: `analyze` is total — by construction its Lean type returns an
`AnalysisResult` for every parameter bundle and every behaviour of its
black-box collaborators, so nothing ever escapes the contract boundary —
and on internal failure it returns the sentinel empty result: the summary
carries the explanatory message and the confidence is 0.  The conjuncts
cover the failure branches of both analyzers in src: sentiment's
`except Exception` branch, and ARIMA's validation-failure, fit-failure
and `except Exception` branches. -/
theorem analyze_total_with_sentinel_on_failure :
    (∀ (fetch : String → List String)
       (analyzeArts : List String → Except String (List ℚ))
       (params : AnalysisParameters) (e : String),
        ((pget params.custom_params "include_news").getD (.pbool true)).truthy = true →
        fetch params.symbol ≠ [] →
        analyzeArts (fetch params.symbol) = .error e →
        Sentiment.analyze fetch analyzeArts params =
            create_empty_result "sentiment" params.symbol e ∧
          (Sentiment.analyze fetch analyzeArts params).confidence = 0 ∧
          (Sentiment.analyze fetch analyzeArts params).summary = e) ∧
    (∀ (Model : Type) (fit : List ℚ → Option Model)
       (fb : Model → Except String AnalysisResult)
       (params : AnalysisParameters) (e : String) (rest : List String),
        Arima.validate_data 60 params.data = e :: rest →
        Arima.analyze fit fb params = create_empty_result "arima" params.symbol e ∧
          (Arima.analyze fit fb params).confidence = 0 ∧
          (Arima.analyze fit fb params).summary = e) ∧
    (∀ (Model : Type) (fit : List ℚ → Option Model)
       (fb : Model → Except String AnalysisResult)
       (params : AnalysisParameters),
        Arima.validate_data 60 params.data = [] →
        fit params.data = none →
        Arima.analyze fit fb params =
            create_empty_result "arima" params.symbol
              "ARIMA-Modell konnte nicht erstellt werden" ∧
          (Arima.analyze fit fb params).confidence = 0) ∧
    (∀ (Model : Type) (fit : List ℚ → Option Model)
       (fb : Model → Except String AnalysisResult)
       (params : AnalysisParameters) (m : Model) (e : String),
        Arima.validate_data 60 params.data = [] →
        fit params.data = some m →
        fb m = .error e →
        Arima.analyze fit fb params = create_empty_result "arima" params.symbol e ∧
          (Arima.analyze fit fb params).confidence = 0 ∧
          (Arima.analyze fit fb params).summary = e) := by
  refine ⟨?_, ?_, ?_, ?_⟩
  · intro fetch analyzeArts params e htruthy hne herr
    have hemp : (fetch params.symbol).isEmpty = false := by
      cases h' : fetch params.symbol with
      | nil => exact absurd h' hne
      | cons a t => rfl
    have heq : Sentiment.analyze fetch analyzeArts params =
        create_empty_result "sentiment" params.symbol e := by
      simp [Sentiment.analyze, htruthy, hemp, herr]
    exact ⟨heq, by rw [heq]; rfl, by rw [heq]; rfl⟩
  · intro Model fit fb params e rest hval
    have heq : Arima.analyze fit fb params =
        create_empty_result "arima" params.symbol e := by
      simp [Arima.analyze, hval]
    exact ⟨heq, by rw [heq]; rfl, by rw [heq]; rfl⟩
  · intro Model fit fb params hval hfit
    have heq : Arima.analyze fit fb params =
        create_empty_result "arima" params.symbol
          "ARIMA-Modell konnte nicht erstellt werden" := by
      simp [Arima.analyze, hval, hfit]
    exact ⟨heq, by rw [heq]; rfl⟩
  · intro Model fit fb params m e hval hfit herr
    have heq : Arima.analyze fit fb params =
        create_empty_result "arima" params.symbol e := by
      simp [Arima.analyze, hval, hfit, herr]
    exact ⟨heq, by rw [heq]; rfl, by rw [heq]; rfl⟩

/-- Witness for C1: a sentiment run whose article analysis raises
"boom", and an ARIMA run (on 60 data points, so validation passes) whose
model fit fails — both return the confidence-0 sentinel. -/
theorem analyze_total_with_sentinel_on_failure_witness :
    (Sentiment.analyze (fun _ => ["title"]) (fun _ => .error "boom")
        { symbol := "AAPL", data := [], timeframe := .medium, custom_params := [] } =
      create_empty_result "sentiment" "AAPL" "boom" ∧
      (Sentiment.analyze (fun _ => ["title"]) (fun _ => .error "boom")
        { symbol := "AAPL", data := [], timeframe := .medium,
          custom_params := [] }).confidence = 0 ∧
      (Sentiment.analyze (fun _ => ["title"]) (fun _ => .error "boom")
        { symbol := "AAPL", data := [], timeframe := .medium,
          custom_params := [] }).summary = "boom") ∧
    (Arima.analyze (fun _ => (none : Option Unit)) (fun _ => .error "never")
        { symbol := "AAPL", data := List.replicate 60 1, timeframe := .medium,
          custom_params := [] } =
      create_empty_result "arima" "AAPL" "ARIMA-Modell konnte nicht erstellt werden" ∧
      (Arima.analyze (fun _ => (none : Option Unit)) (fun _ => .error "never")
        { symbol := "AAPL", data := List.replicate 60 1, timeframe := .medium,
          custom_params := [] }).confidence = 0) := by
  refine ⟨?_, ?_⟩
  · exact analyze_total_with_sentinel_on_failure.1 (fun _ => ["title"])
      (fun _ => .error "boom")
      { symbol := "AAPL", data := [], timeframe := .medium, custom_params := [] }
      "boom" rfl (by decide) rfl
  · exact analyze_total_with_sentinel_on_failure.2.2.1 Unit (fun _ => none)
      (fun _ => .error "never")
      { symbol := "AAPL", data := List.replicate 60 1, timeframe := .medium,
        custom_params := [] }
      (by decide) rfl

/-! ## Auto-Selector thresholds (C9) -/

theorem sampleVar_nonneg (xs : List ℚ) : 0 ≤ AutoSelector.sampleVar xs := by
  cases xs with
  | nil => simp [AutoSelector.sampleVar]
  | cons a t =>
      unfold AutoSelector.sampleVar
      apply div_nonneg
      · apply List.sum_nonneg
        intro x hx
        obtain ⟨y, hy, rfl⟩ := List.mem_map.mp hx
        positivity
      · simp only [List.length_cons]
        push_cast
        have hn : (0 : ℚ) ≤ (t.length : ℚ) := Nat.cast_nonneg _
        linarith

/-- The source compares `returns.std() * np.sqrt(252) > 0.3`; with a
nonnegative variance this is the squared comparison the embedding uses. -/
theorem vol_cmp (v : ℚ) (hv : 0 ≤ v) :
    (Real.sqrt (v : ℝ) * Real.sqrt 252 > 3 / 10) ↔ (252 * v > (3 / 10) ^ 2) := by
  have hv' : (0 : ℝ) ≤ (v : ℝ) := by exact_mod_cast hv
  rw [← Real.sqrt_mul hv' 252]
  constructor
  · intro h
    have h2 := (Real.lt_sqrt (by norm_num : (0 : ℝ) ≤ 3 / 10)).mp h
    have h3 : (((3 / 10 : ℚ) ^ 2 : ℚ) : ℝ) < ((252 * v : ℚ) : ℝ) := by
      push_cast at h2 ⊢
      linarith
    exact_mod_cast h3
  · intro h
    have h2 : ((3 / 10 : ℝ)) ^ 2 < (v : ℝ) * 252 := by
      have h3 := (Rat.cast_lt (K := ℝ)).mpr h
      push_cast at h3 ⊢
      linarith
    exact (Real.lt_sqrt (by norm_num)).mpr h2

/-- C9: for a dataset with enough (positive) close prices, the
Auto-Selector's justification mapping always contains "sentiment";
it contains "monte_carlo" exactly when the annualized volatility
`returns.std() * sqrt(252)` exceeds 0.3, and "arima" exactly when the
absolute 20-day trend exceeds 0.1 (src/jobs/executor.py lines 228-249). -/
theorem auto_selector_selection_reasons (closes : List ℚ)
    (hlen : 21 ≤ closes.length) (hpos : ∀ x ∈ closes, 0 < x) :
    "sentiment" ∈ (AutoSelector.get_selection_reasons closes).map Prod.fst ∧
    ("monte_carlo" ∈ (AutoSelector.get_selection_reasons closes).map Prod.fst ↔
      Real.sqrt ((AutoSelector.sampleVar (AutoSelector.pct_change closes) : ℚ) : ℝ) *
        Real.sqrt 252 > 3 / 10) ∧
    ("arima" ∈ (AutoSelector.get_selection_reasons closes).map Prod.fst ↔
      |AutoSelector.trend20 closes| > 1 / 10) := by
  have hv := vol_cmp (AutoSelector.sampleVar (AutoSelector.pct_change closes))
    (sampleVar_nonneg _)
  simp only [AutoSelector.get_selection_reasons, AutoSelector.annualizedVolSq]
  rw [hv]
  split_ifs <;> simp_all

/-- Witness for C9: 21 constant positive closes — volatility 0 and trend
0, so the mapping has "sentiment" but neither "monte_carlo" nor
"arima". -/
theorem auto_selector_selection_reasons_witness :
    "sentiment" ∈ (AutoSelector.get_selection_reasons (List.replicate 21 100)).map Prod.fst ∧
    ("monte_carlo" ∈ (AutoSelector.get_selection_reasons (List.replicate 21 100)).map Prod.fst ↔
      Real.sqrt ((AutoSelector.sampleVar (AutoSelector.pct_change (List.replicate 21 100)) : ℚ) : ℝ) *
        Real.sqrt 252 > 3 / 10) ∧
    ("arima" ∈ (AutoSelector.get_selection_reasons (List.replicate 21 100)).map Prod.fst ↔
      |AutoSelector.trend20 (List.replicate 21 100)| > 1 / 10) := by
  exact auto_selector_selection_reasons (List.replicate 21 100) (by simp)
    (by intro x hx; rw [List.eq_of_mem_replicate hx]; norm_num)
